import Mathlib

/-!
Verification of the OpenClaw dashboard request gate (`middleware.js`).

The gate intercepts API requests, applies an in-memory, IP-keyed rate limit
and a shared-secret API-key check for protected route prefixes, attaching
three static security headers to forwarded responses.

The embedding below translates `middleware.js` directly:

* `RateRecord`, `RateMap`     — the `rateLimitMap` entries (a JS `Map` is
  modelled as an association list with at most one entry per key;
  `mapGet`/`mapSet` mirror `Map.get`/`Map.set`);
* `checkRateLimit`            — the function of the same name;
* `middleware`                — the exported middleware function, returning
  the response, the updated rate table and the emitted log lines;
* `runGate`                   — folds `middleware` over a request sequence.

Time is modelled as `Int` (milliseconds, `Date.now()`); JS string falsiness
(`null` and `''`) is modelled explicitly in `jsOrStr` and `suppliedKey`.
-/

namespace OpenClaw

/-- A `rateLimitMap` entry: `{ timestamp: now, count: 1 }`. -/
structure RateRecord where
  timestamp : Int
  count : Nat
deriving DecidableEq, Repr

/-- The in-memory rate table, a JS `Map` keyed by client identifier. -/
abbrev RateMap := List (String × RateRecord)

/-- `Map.get`: the value stored for `k`, if any (first matching key). -/
def mapGet (m : RateMap) (k : String) : Option RateRecord :=
  match m with
  | [] => none
  | (k', v') :: rest => if k' = k then some v' else mapGet rest k

/-- `Map.set`: replace the value for `k` if present, else append the entry. -/
def mapSet (m : RateMap) (k : String) (v : RateRecord) : RateMap :=
  match m with
  | [] => [(k, v)]
  | (k', v') :: rest => if k' = k then (k', v) :: rest else (k', v') :: mapSet rest k v

/-- `RATE_LIMIT_WINDOW = 60 * 1000` milliseconds. -/
def RATE_LIMIT_WINDOW : Int := 60 * 1000

/-- `RATE_LIMIT_MAX = 100` requests per window. -/
def RATE_LIMIT_MAX : Nat := 100

/-- JS `s.startsWith(p)`: the characters of `p` are a prefix of those of `s`. -/
def startsWith (s p : String) : Bool :=
  p.data.isPrefixOf s.data

/-- `PROTECTED_ROUTES`: path prefixes that require authentication. -/
def PROTECTED_ROUTES : List String :=
  ["/api/settings", "/api/tokens", "/api/relationships", "/api/goals",
   "/api/learning", "/api/workflows", "/api/inspiration", "/api/bounties",
   "/api/content", "/api/schedules", "/api/calendar", "/api/memory"]

/-- `PUBLIC_ROUTES`: path prefixes that are always public. -/
def PUBLIC_ROUTES : List String :=
  ["/api/health", "/api/setup/status"]

/-- `checkRateLimit(ip)` made explicit in `now` and the table: returns the
admission verdict together with the updated table. -/
def checkRateLimit (ip : String) (now : Int) (m : RateMap) : Bool × RateMap :=
  match mapGet m ip with
  | none => (true, mapSet m ip ⟨now, 1⟩)
  | some record =>
    if now - record.timestamp > RATE_LIMIT_WINDOW then
      (true, mapSet m ip ⟨now, 1⟩)
    else if record.count ≥ RATE_LIMIT_MAX then
      (false, m)
    else
      (true, mapSet m ip ⟨record.timestamp, record.count + 1⟩)

/-- The parts of the inbound request the gate reads: the path, the two
address headers, the API-key header and the `api_key` query parameter
(`none` models a JS `null` for an absent header or parameter). -/
structure Request where
  pathname : String
  xForwardedFor : Option String
  xRealIp : Option String
  xApiKey : Option String
  apiKeyParam : Option String
deriving DecidableEq, Repr

/-- JS `a || b` for a nullable string `a` and string `b`: `null` and the
empty string are falsy. -/
def jsOrStr (a : Option String) (b : String) : String :=
  match a with
  | none => b
  | some s => if s = "" then b else s

/-- JS `s.split(',')[0]`: the characters before the first comma. -/
def firstForwarded (s : String) : String :=
  String.mk (s.data.takeWhile (fun c => !(c == ',')))

/-- The client identifier:
`headers.get('x-forwarded-for')?.split(',')[0] || headers.get('x-real-ip') || 'unknown'`. -/
def clientIp (request : Request) : String :=
  jsOrStr (request.xForwardedFor.map firstForwarded) (jsOrStr request.xRealIp "unknown")

/-- The supplied credential:
`request.headers.get('x-api-key') || request.nextUrl.searchParams.get('api_key')`. -/
def suppliedKey (request : Request) : Option String :=
  match request.xApiKey with
  | none => request.apiKeyParam
  | some s => if s = "" then request.apiKeyParam else some s

/-- The gate's response: either `NextResponse.next()` carrying the response
headers set on it, or `NextResponse.json({ error }, { status, headers })`. -/
inductive Response where
  | next (headers : List (String × String))
  | json (error : String) (status : Nat) (headers : List (String × String))
deriving DecidableEq, Repr

/-- The response headers carried by a response. -/
def Response.headersOf : Response → List (String × String)
  | .next hs => hs
  | .json _ _ hs => hs

/-- `true` exactly when the request was forwarded (`NextResponse.next`). -/
def isForwarded : Response → Bool
  | .next _ => true
  | .json _ _ _ => false

/-- The diagnostic log lines the gate can emit, with their data. -/
inductive LogEntry where
  | rateLimitExceeded (ip pathname : String)
  | noKeyConfigured (pathname : String)
  | unauthorizedAttempt (pathname ip : String)
deriving DecidableEq, Repr

/-- The three static security headers set on the success path. -/
def securityHeaders : List (String × String) :=
  [("X-Content-Type-Options", "nosniff"),
   ("X-Frame-Options", "DENY"),
   ("X-XSS-Protection", "1; mode=block")]

/-- `PUBLIC_ROUTES.some(route => pathname.startsWith(route))`. -/
def isPublicRoute (pathname : String) : Bool :=
  PUBLIC_ROUTES.any (fun route => startsWith pathname route)

/-- `PROTECTED_ROUTES.some(route => pathname.startsWith(route))`. -/
def isProtectedRoute (pathname : String) : Bool :=
  PROTECTED_ROUTES.any (fun route => startsWith pathname route)

/-- One gate invocation's observable outcome: the response, the rate table
after the call, and the log lines emitted. -/
structure GateOutput where
  response : Response
  state : RateMap
  logs : List LogEntry
deriving DecidableEq, Repr

/-- `middleware(request)` made explicit in the environment secret
(`process.env.DASHBOARD_API_KEY`, `none` when unset), the current time and
the rate table. Follows the source branch for branch. -/
def middleware (env : Option String) (now : Int) (request : Request) (m : RateMap) :
    GateOutput :=
  if !(startsWith request.pathname "/api/") then
    ⟨Response.next [], m, []⟩
  else if isPublicRoute request.pathname then
    ⟨Response.next [], m, []⟩
  else
    match checkRateLimit (clientIp request) now m with
    | (false, m₁) =>
      ⟨Response.json "Rate limit exceeded. Please slow down." 429 [("Retry-After", "60")],
        m₁, [LogEntry.rateLimitExceeded (clientIp request) request.pathname]⟩
    | (true, m₁) =>
      if isProtectedRoute request.pathname then
        match env with
        | none => ⟨Response.next [], m₁, [LogEntry.noKeyConfigured request.pathname]⟩
        | some expectedKey =>
          if expectedKey = "" then
            ⟨Response.next [], m₁, [LogEntry.noKeyConfigured request.pathname]⟩
          else if suppliedKey request ≠ some expectedKey then
            ⟨Response.json "Unauthorized - Invalid or missing API key" 401 [],
              m₁, [LogEntry.unauthorizedAttempt request.pathname (clientIp request)]⟩
          else
            ⟨Response.next securityHeaders, m₁, []⟩
      else
        ⟨Response.next securityHeaders, m₁, []⟩

/-- Folding the gate over a sequence of timed requests, collecting the
responses and threading the rate table. -/
def runGate (env : Option String) (reqs : List (Int × Request)) (m : RateMap) :
    List Response × RateMap :=
  match reqs with
  | [] => ([], m)
  | (t, r) :: rest =>
    let out := middleware env t r m
    let tail := runGate env rest out.state
    (out.response :: tail.1, tail.2)

/-- The authentication verdict the gate reaches once the rate check has
passed (derived from the protected-route branch of `middleware`): `true`
when the request is forwarded rather than rejected with 401. -/
def authOk (env : Option String) (request : Request) : Bool :=
  if isProtectedRoute request.pathname then
    match env with
    | none => true
    | some expectedKey =>
      if expectedKey = "" then true
      else decide (suppliedKey request = some expectedKey)
  else true

/-- A request that the rate limiter gates and authentication admits, from
the identifier `ip`. -/
def GoodReq (env : Option String) (ip : String) (p : Int × Request) : Prop :=
  startsWith p.2.pathname "/api/" = true ∧
  isPublicRoute p.2.pathname = false ∧
  authOk env p.2 = true ∧
  clientIp p.2 = ip

/-- There is at most one rate record per identifier. -/
def keysNodup (m : RateMap) : Prop :=
  (m.map Prod.fst).Nodup

instance (env : Option String) (ip : String) (p : Int × Request) :
    Decidable (GoodReq env ip p) := by
  unfold GoodReq; infer_instance

instance (m : RateMap) : Decidable (keysNodup m) := by
  unfold keysNodup; infer_instance

/-- `Map.set` followed by `Map.get` at the same key yields the stored value. -/
theorem mapGet_mapSet_self (m : RateMap) (k : String) (v : RateRecord) :
    mapGet (mapSet m k v) k = some v := by
  induction m with
  | nil => simp [mapGet, mapSet]
  | cons hd tl ih =>
    obtain ⟨k', v'⟩ := hd
    by_cases h : k' = k
    · simp [mapGet, mapSet, h]
    · simp [mapGet, mapSet, h, ih]

/-- The keys after a `Map.set` are the old keys plus (at most) the key set. -/
theorem mem_keys_mapSet (m : RateMap) (k a : String) (v : RateRecord) :
    a ∈ (mapSet m k v).map Prod.fst ↔ a ∈ m.map Prod.fst ∨ a = k := by
  induction m with
  | nil => simp [mapSet]
  | cons hd tl ih =>
    obtain ⟨k', v'⟩ := hd
    by_cases h : k' = k
    · subst h
      simp [mapSet]
      tauto
    · simp [mapSet, h, ih]
      tauto

/-- `Map.set` keeps the keys duplicate-free. -/
theorem keysNodup_mapSet (m : RateMap) (k : String) (v : RateRecord)
    (hm : keysNodup m) : keysNodup (mapSet m k v) := by
  induction m with
  | nil => simp [keysNodup, mapSet]
  | cons hd tl ih =>
    obtain ⟨k', v'⟩ := hd
    rw [keysNodup, List.map_cons, List.nodup_cons] at hm
    obtain ⟨hk', htl⟩ := hm
    by_cases h : k' = k
    · subst h
      have hset : mapSet ((k', v') :: tl) k' v = (k', v) :: tl := by simp [mapSet]
      rw [keysNodup, hset, List.map_cons, List.nodup_cons]
      exact ⟨hk', htl⟩
    · have hset : mapSet ((k', v') :: tl) k v = (k', v') :: mapSet tl k v := by
        simp [mapSet, h]
      rw [keysNodup, hset, List.map_cons, List.nodup_cons]
      refine ⟨?_, ih htl⟩
      rw [mem_keys_mapSet]
      rintro (hmem | rfl)
      · exact hk' hmem
      · exact h rfl

/-- A rejecting `checkRateLimit` call leaves the table untouched. -/
theorem checkRateLimit_false (ip : String) (now : Int) (m m' : RateMap)
    (h : checkRateLimit ip now m = (false, m')) : m' = m := by
  unfold checkRateLimit at h
  split at h
  · simp at h
  · split at h
    · simp at h
    · split at h
      · exact ((Prod.mk.injEq ..).mp h).2.symm
      · simp at h

/-- An admitting `checkRateLimit` call stores a fresh record `⟨now, 1⟩` or
increments the existing record's count in place. -/
theorem checkRateLimit_true_get (ip : String) (now : Int) (m m₁ : RateMap)
    (h : checkRateLimit ip now m = (true, m₁)) :
    mapGet m₁ ip = some ⟨now, 1⟩ ∨
      ∃ old, mapGet m ip = some old ∧ mapGet m₁ ip = some ⟨old.timestamp, old.count + 1⟩ := by
  unfold checkRateLimit at h
  split at h
  · have hm₁ : mapSet m ip ⟨now, 1⟩ = m₁ := ((Prod.mk.injEq ..).mp h).2
    exact Or.inl (hm₁ ▸ mapGet_mapSet_self m ip ⟨now, 1⟩)
  · rename_i record hget
    split at h
    · have hm₁ : mapSet m ip ⟨now, 1⟩ = m₁ := ((Prod.mk.injEq ..).mp h).2
      exact Or.inl (hm₁ ▸ mapGet_mapSet_self m ip ⟨now, 1⟩)
    · split at h
      · simp at h
      · have hm₁ : mapSet m ip ⟨record.timestamp, record.count + 1⟩ = m₁ :=
          ((Prod.mk.injEq ..).mp h).2
        exact Or.inr ⟨record, hget,
          hm₁ ▸ mapGet_mapSet_self m ip ⟨record.timestamp, record.count + 1⟩⟩

/-- `checkRateLimit` keeps the keys duplicate-free. -/
theorem checkRateLimit_nodup (ip : String) (now : Int) (m : RateMap)
    (hm : keysNodup m) : keysNodup (checkRateLimit ip now m).2 := by
  unfold checkRateLimit
  split
  · exact keysNodup_mapSet m ip ⟨now, 1⟩ hm
  · split
    · exact keysNodup_mapSet m ip ⟨now, 1⟩ hm
    · split
      · exact hm
      · exact keysNodup_mapSet m ip _ hm

/-- Once the rate check admits, the gate's final table is the rate check's. -/
theorem middleware_state_of_rate_ok (env : Option String) (now : Int) (request : Request)
    (m m₁ : RateMap)
    (hapi : startsWith request.pathname "/api/" = true)
    (hpub : isPublicRoute request.pathname = false)
    (hrl : checkRateLimit (clientIp request) now m = (true, m₁)) :
    (middleware env now request m).state = m₁ := by
  by_cases h3 : isProtectedRoute request.pathname = true
  · cases env with
    | none => simp [middleware, hapi, hpub, hrl, h3]
    | some expectedKey =>
      by_cases h4 : expectedKey = ""
      · simp [middleware, hapi, hpub, hrl, h3, h4]
      · by_cases h5 : suppliedKey request = some expectedKey
        · simp [middleware, hapi, hpub, hrl, h3, h4, h5]
        · simp [middleware, hapi, hpub, hrl, h3, h4, h5]
  · rw [Bool.not_eq_true] at h3
    simp [middleware, hapi, hpub, hrl, h3]

/-- Once the rate check admits and authentication succeeds, the gate
forwards and its final table is the rate check's. -/
theorem middleware_admitted_forward (env : Option String) (now : Int) (request : Request)
    (m m₁ : RateMap)
    (hapi : startsWith request.pathname "/api/" = true)
    (hpub : isPublicRoute request.pathname = false)
    (hauth : authOk env request = true)
    (hrl : checkRateLimit (clientIp request) now m = (true, m₁)) :
    isForwarded (middleware env now request m).response = true ∧
    (middleware env now request m).state = m₁ := by
  by_cases h3 : isProtectedRoute request.pathname = true
  · unfold authOk at hauth
    rw [if_pos h3] at hauth
    cases env with
    | none => simp [middleware, hapi, hpub, hrl, h3, isForwarded]
    | some expectedKey =>
      by_cases h4 : expectedKey = ""
      · simp [middleware, hapi, hpub, hrl, h3, h4, isForwarded]
      · simp only [h4, if_false, decide_eq_true_eq] at hauth
        simp [middleware, hapi, hpub, hrl, h3, h4, hauth, isForwarded]
  · rw [Bool.not_eq_true] at h3
    simp [middleware, hapi, hpub, hrl, h3, isForwarded]

/-- Once the rate check rejects, the gate returns the 429 response. -/
theorem middleware_rate_reject (env : Option String) (now : Int) (request : Request)
    (m m₁ : RateMap)
    (hapi : startsWith request.pathname "/api/" = true)
    (hpub : isPublicRoute request.pathname = false)
    (hrl : checkRateLimit (clientIp request) now m = (false, m₁)) :
    middleware env now request m =
      ⟨Response.json "Rate limit exceeded. Please slow down." 429 [("Retry-After", "60")],
        m₁, [LogEntry.rateLimitExceeded (clientIp request) request.pathname]⟩ := by
  simp [middleware, hapi, hpub, hrl]

/-- A concrete protected-route request with no credential and no address headers. -/
def reqGoals : Request := ⟨"/api/goals", none, none, none, none⟩

/-- A concrete public-route request. -/
def reqHealth : Request := ⟨"/api/health", none, none, none, none⟩

/-- A concrete API request that is neither protected nor public. -/
def reqOther : Request := ⟨"/api/other", none, none, none, none⟩

/-- A concrete protected-route request with a wrong API-key header. -/
def reqWrongKey : Request := ⟨"/api/settings", none, none, some "wrong", none⟩

/-- C2: for an identifier whose rate record has window start `T0`, a request
at time `t` with `t - T0` strictly greater than the window duration is
admitted by the rate limiter and the record is reset to count 1 with window
start `t`, regardless of how large the prior count was. -/
theorem window_reset_admits (ip : String) (now : Int) (m : RateMap) (record : RateRecord)
    (hrec : mapGet m ip = some record)
    (hexp : now - record.timestamp > RATE_LIMIT_WINDOW) :
    checkRateLimit ip now m = (true, mapSet m ip ⟨now, 1⟩) ∧
    mapGet (checkRateLimit ip now m).2 ip = some ⟨now, 1⟩ := by
  have h : checkRateLimit ip now m = (true, mapSet m ip ⟨now, 1⟩) := by
    simp [checkRateLimit, hrec, hexp]
  refine ⟨h, ?_⟩
  rw [h]
  exact mapGet_mapSet_self m ip ⟨now, 1⟩

/-- Witness for C2: a record with count 77 whose window started at 0 is
reset by a request at 61001 ms. -/
theorem window_reset_admits_witness :
    (mapGet [("1.2.3.4", ⟨0, 77⟩)] "1.2.3.4" = some ⟨0, 77⟩ ∧
      (61001 : Int) - (0 : Int) > RATE_LIMIT_WINDOW) ∧
    (checkRateLimit "1.2.3.4" 61001 [("1.2.3.4", ⟨0, 77⟩)] =
        (true, mapSet [("1.2.3.4", ⟨0, 77⟩)] "1.2.3.4" ⟨61001, 1⟩) ∧
      mapGet (checkRateLimit "1.2.3.4" 61001 [("1.2.3.4", ⟨0, 77⟩)]).2 "1.2.3.4" =
        some ⟨61001, 1⟩) :=
  ⟨⟨by decide, by decide⟩,
    window_reset_admits "1.2.3.4" 61001 [("1.2.3.4", ⟨0, 77⟩)] ⟨0, 77⟩ (by decide) (by decide)⟩

/-- C4: with no shared secret configured, a request to a protected route
that is under the rate ceiling is forwarded even with no credential at all,
with the fail-open warning logged. -/
theorem fail_open_default (now : Int) (request : Request) (m m₁ : RateMap)
    (hapi : startsWith request.pathname "/api/" = true)
    (hpub : isPublicRoute request.pathname = false)
    (hprot : isProtectedRoute request.pathname = true)
    (_hnokey : request.xApiKey = none ∧ request.apiKeyParam = none)
    (hrl : checkRateLimit (clientIp request) now m = (true, m₁)) :
    isForwarded (middleware none now request m).response = true ∧
    (middleware none now request m).logs = [LogEntry.noKeyConfigured request.pathname] := by
  simp [middleware, hapi, hpub, hrl, hprot, isForwarded]

/-- Witness for C4: a credential-free request to `/api/goals` with no
secret configured is forwarded with the warning logged. -/
theorem fail_open_default_witness :
    (startsWith reqGoals.pathname "/api/" = true ∧
      isPublicRoute reqGoals.pathname = false ∧
      isProtectedRoute reqGoals.pathname = true ∧
      (reqGoals.xApiKey = none ∧ reqGoals.apiKeyParam = none) ∧
      checkRateLimit (clientIp reqGoals) 0 [] = (true, [("unknown", ⟨0, 1⟩)])) ∧
    isForwarded (middleware none 0 reqGoals []).response = true ∧
    (middleware none 0 reqGoals []).logs = [LogEntry.noKeyConfigured reqGoals.pathname] :=
  ⟨⟨by decide, by decide, by decide, by decide, by decide⟩,
    fail_open_default 0 reqGoals [] [("unknown", ⟨0, 1⟩)]
      (by decide) (by decide) (by decide) (by decide) (by decide)⟩

/-- C5: with a shared secret configured, a request to a protected route
under the rate ceiling whose supplied key (API-key header, else `api_key`
query parameter) differs from the secret is rejected as unauthorized, and
one whose supplied key equals the secret is admitted. -/
theorem credential_enforcement (now : Int) (request : Request) (secret : String)
    (m m₁ : RateMap)
    (hsecret : secret ≠ "")
    (hapi : startsWith request.pathname "/api/" = true)
    (hpub : isPublicRoute request.pathname = false)
    (hprot : isProtectedRoute request.pathname = true)
    (hrl : checkRateLimit (clientIp request) now m = (true, m₁)) :
    (suppliedKey request ≠ some secret →
      (middleware (some secret) now request m).response =
        Response.json "Unauthorized - Invalid or missing API key" 401 []) ∧
    (suppliedKey request = some secret →
      (middleware (some secret) now request m).response = Response.next securityHeaders) := by
  constructor
  · intro hne
    simp [middleware, hapi, hpub, hrl, hprot, hsecret, hne]
  · intro heq
    simp [middleware, hapi, hpub, hrl, hprot, hsecret, heq]

/-- Witness for C5: with secret `abc123`, a request to `/api/settings`
with header key `wrong` is rejected as unauthorized. -/
theorem credential_enforcement_witness :
    ("abc123" ≠ "" ∧
      startsWith reqWrongKey.pathname "/api/" = true ∧
      isPublicRoute reqWrongKey.pathname = false ∧
      isProtectedRoute reqWrongKey.pathname = true ∧
      checkRateLimit (clientIp reqWrongKey) 0 [] = (true, [("unknown", ⟨0, 1⟩)])) ∧
    ((suppliedKey reqWrongKey ≠ some "abc123" →
      (middleware (some "abc123") 0 reqWrongKey []).response =
        Response.json "Unauthorized - Invalid or missing API key" 401 []) ∧
    (suppliedKey reqWrongKey = some "abc123" →
      (middleware (some "abc123") 0 reqWrongKey []).response = Response.next securityHeaders)) :=
  ⟨⟨by decide, by decide, by decide, by decide, by decide⟩,
    credential_enforcement 0 reqWrongKey "abc123" [] [("unknown", ⟨0, 1⟩)]
      (by decide) (by decide) (by decide) (by decide) (by decide)⟩

/-- C6: a request whose path matches a public-route prefix is forwarded
unconditionally: for every environment, time and rate table, the gate
returns the plain forward, leaves the table unchanged (the result does not
depend on the table at all) and logs nothing. -/
theorem public_route_bypass (env : Option String) (now : Int) (request : Request)
    (m : RateMap)
    (hpub : isPublicRoute request.pathname = true) :
    middleware env now request m = ⟨Response.next [], m, []⟩ := by
  by_cases h1 : startsWith request.pathname "/api/" = true
  · simp [middleware, h1, hpub]
  · rw [Bool.not_eq_true] at h1
    simp [middleware, h1]

/-- Witness for C6: `/api/health` is forwarded although the identifier is
at the ceiling and no credential is supplied under a configured secret. -/
theorem public_route_bypass_witness :
    isPublicRoute reqHealth.pathname = true ∧
    middleware (some "abc123") 0 reqHealth [("unknown", ⟨0, 100⟩)] =
      ⟨Response.next [], [("unknown", ⟨0, 100⟩)], []⟩ :=
  ⟨by decide,
    public_route_bypass (some "abc123") 0 reqHealth [("unknown", ⟨0, 100⟩)] (by decide)⟩

/-- C8: when the gate rejects a request for exceeding the rate ceiling, the
whole rate table — in particular the identifier's record — is unchanged. -/
theorem rate_reject_preserves_state (env : Option String) (now : Int) (request : Request)
    (m : RateMap)
    (hrej : (middleware env now request m).response =
      Response.json "Rate limit exceeded. Please slow down." 429 [("Retry-After", "60")]) :
    (middleware env now request m).state = m := by
  by_cases h1 : startsWith request.pathname "/api/" = true
  · by_cases h2 : isPublicRoute request.pathname = true
    · simp [middleware, h1, h2] at hrej
    · rw [Bool.not_eq_true] at h2
      rcases hck : checkRateLimit (clientIp request) now m with ⟨ok, m₁⟩
      cases ok with
      | false =>
        have hm := checkRateLimit_false (clientIp request) now m m₁ hck
        rw [middleware_rate_reject env now request m m₁ h1 h2 hck]
        exact hm
      | true =>
        by_cases h3 : isProtectedRoute request.pathname = true
        · cases env with
          | none => simp [middleware, h1, h2, hck, h3] at hrej
          | some expectedKey =>
            by_cases h4 : expectedKey = ""
            · simp [middleware, h1, h2, hck, h3, h4] at hrej
            · by_cases h5 : suppliedKey request = some expectedKey
              · simp [middleware, h1, h2, hck, h3, h4, h5] at hrej
              · simp [middleware, h1, h2, hck, h3, h4, h5] at hrej
        · rw [Bool.not_eq_true] at h3
          simp [middleware, h1, h2, hck, h3] at hrej
  · rw [Bool.not_eq_true] at h1
    simp [middleware, h1] at hrej

/-- Witness for C8: a 429 rejection at the ceiling leaves the table as it
was. -/
theorem rate_reject_preserves_state_witness :
    (middleware none 1 reqOther [("unknown", ⟨0, 100⟩)]).response =
      Response.json "Rate limit exceeded. Please slow down." 429 [("Retry-After", "60")] ∧
    (middleware none 1 reqOther [("unknown", ⟨0, 100⟩)]).state = [("unknown", ⟨0, 100⟩)] :=
  ⟨by decide, rate_reject_preserves_state none 1 reqOther [("unknown", ⟨0, 100⟩)] (by decide)⟩

/-- The gate keeps the keys of the rate table duplicate-free. -/
theorem middleware_state_nodup (env : Option String) (now : Int) (request : Request)
    (m : RateMap) (hm : keysNodup m) : keysNodup (middleware env now request m).state := by
  by_cases h1 : startsWith request.pathname "/api/" = true
  · by_cases h2 : isPublicRoute request.pathname = true
    · simpa [middleware, h1, h2] using hm
    · rw [Bool.not_eq_true] at h2
      rcases hck : checkRateLimit (clientIp request) now m with ⟨ok, m₁⟩
      have hnd : keysNodup m₁ := by
        have h := checkRateLimit_nodup (clientIp request) now m hm
        rw [hck] at h
        exact h
      cases ok with
      | false =>
        rw [middleware_rate_reject env now request m m₁ h1 h2 hck]
        exact hnd
      | true =>
        rw [middleware_state_of_rate_ok env now request m m₁ h1 h2 hck]
        exact hnd
  · rw [Bool.not_eq_true] at h1
    simpa [middleware, h1] using hm

/-- C3 counterexample: the claim fails on the fail-open path. A request to
the protected route `/api/goals` with no secret configured passes every
check and is forwarded, yet carries none of the three security headers. -/
theorem security_headers_counterexample :
    startsWith reqGoals.pathname "/api/" = true ∧
    isPublicRoute reqGoals.pathname = false ∧
    isProtectedRoute reqGoals.pathname = true ∧
    (checkRateLimit (clientIp reqGoals) 0 []).1 = true ∧
    isForwarded (middleware none 0 reqGoals []).response = true ∧
    (middleware none 0 reqGoals []).response.headersOf = [] ∧
    (middleware none 0 reqGoals []).response ≠ Response.next securityHeaders := by
  decide

/-- C3 amended: requests that pass all checks are forwarded with the three
security headers attached, except on the fail-open path (protected route,
no secret configured), which forwards with no headers. -/
theorem security_headers_on_success (env : Option String) (now : Int) (request : Request)
    (m m₁ : RateMap)
    (hapi : startsWith request.pathname "/api/" = true)
    (hpub : isPublicRoute request.pathname = false)
    (hrl : checkRateLimit (clientIp request) now m = (true, m₁))
    (hnf : isProtectedRoute request.pathname = false ∨
      ∃ s, env = some s ∧ s ≠ "" ∧ suppliedKey request = some s) :
    (middleware env now request m).response = Response.next securityHeaders := by
  rcases hnf with hnp | ⟨s, henv, hs, hkey⟩
  · simp [middleware, hapi, hpub, hrl, hnp]
  · subst henv
    by_cases h3 : isProtectedRoute request.pathname = true
    · simp [middleware, hapi, hpub, hrl, h3, hs, hkey]
    · rw [Bool.not_eq_true] at h3
      simp [middleware, hapi, hpub, hrl, h3]

/-- Witness for the amended C3: an unprotected API request is forwarded
with the three security headers. -/
theorem security_headers_on_success_witness :
    (startsWith reqOther.pathname "/api/" = true ∧
      isPublicRoute reqOther.pathname = false ∧
      checkRateLimit (clientIp reqOther) 0 [] = (true, [("unknown", ⟨0, 1⟩)]) ∧
      isProtectedRoute reqOther.pathname = false) ∧
    (middleware none 0 reqOther []).response = Response.next securityHeaders :=
  ⟨⟨by decide, by decide, by decide, by decide⟩,
    security_headers_on_success none 0 reqOther [] [("unknown", ⟨0, 1⟩)]
      (by decide) (by decide) (by decide) (Or.inl (by decide))⟩

/-- C7: every rejected response is one of the two rejection responses — the
429 with body `Rate limit exceeded. Please slow down.` and the single
`Retry-After: 60` header, or the 401 with body
`Unauthorized - Invalid or missing API key` and no headers — and in either
case none of the three security headers is attached. -/
theorem rejected_response_shape (env : Option String) (now : Int) (request : Request)
    (m : RateMap)
    (hrej : isForwarded (middleware env now request m).response = false) :
    ((middleware env now request m).response =
        Response.json "Rate limit exceeded. Please slow down." 429 [("Retry-After", "60")] ∨
      (middleware env now request m).response =
        Response.json "Unauthorized - Invalid or missing API key" 401 []) ∧
    ∀ hv ∈ ((middleware env now request m).response).headersOf,
      hv.1 ≠ "X-Content-Type-Options" ∧ hv.1 ≠ "X-Frame-Options" ∧
        hv.1 ≠ "X-XSS-Protection" := by
  by_cases h1 : startsWith request.pathname "/api/" = true
  · by_cases h2 : isPublicRoute request.pathname = true
    · simp [middleware, h1, h2, isForwarded] at hrej
    · rw [Bool.not_eq_true] at h2
      rcases hck : checkRateLimit (clientIp request) now m with ⟨ok, m₁⟩
      cases ok with
      | false =>
        rw [middleware_rate_reject env now request m m₁ h1 h2 hck]
        refine ⟨Or.inl rfl, ?_⟩
        simp [Response.headersOf]
      | true =>
        by_cases h3 : isProtectedRoute request.pathname = true
        · cases env with
          | none => simp [middleware, h1, h2, hck, h3, isForwarded] at hrej
          | some expectedKey =>
            by_cases h4 : expectedKey = ""
            · simp [middleware, h1, h2, hck, h3, h4, isForwarded] at hrej
            · by_cases h5 : suppliedKey request = some expectedKey
              · simp [middleware, h1, h2, hck, h3, h4, h5, isForwarded] at hrej
              · have hmw : middleware (some expectedKey) now request m =
                    ⟨Response.json "Unauthorized - Invalid or missing API key" 401 [],
                      m₁, [LogEntry.unauthorizedAttempt request.pathname (clientIp request)]⟩ := by
                  simp [middleware, h1, h2, hck, h3, h4, h5]
                rw [hmw]
                refine ⟨Or.inr rfl, ?_⟩
                simp [Response.headersOf]
        · rw [Bool.not_eq_true] at h3
          simp [middleware, h1, h2, hck, h3, isForwarded] at hrej
  · rw [Bool.not_eq_true] at h1
    simp [middleware, h1, isForwarded] at hrej

/-- Witness for C7: the rejection at the ceiling is the 429 response with
its retry hint and no security headers. -/
theorem rejected_response_shape_witness :
    isForwarded (middleware none 1 reqGoals [("unknown", ⟨0, 100⟩)]).response = false ∧
    (((middleware none 1 reqGoals [("unknown", ⟨0, 100⟩)]).response =
        Response.json "Rate limit exceeded. Please slow down." 429 [("Retry-After", "60")] ∨
      (middleware none 1 reqGoals [("unknown", ⟨0, 100⟩)]).response =
        Response.json "Unauthorized - Invalid or missing API key" 401 []) ∧
    ∀ hv ∈ ((middleware none 1 reqGoals [("unknown", ⟨0, 100⟩)]).response).headersOf,
      hv.1 ≠ "X-Content-Type-Options" ∧ hv.1 ≠ "X-Frame-Options" ∧
        hv.1 ≠ "X-XSS-Protection") :=
  ⟨by decide, rejected_response_shape none 1 reqGoals [("unknown", ⟨0, 100⟩)] (by decide)⟩

/-- C9: across every sequence of gate invocations the rate table keeps at
most one record per identifier, and whenever `checkRateLimit` turns an
identifier's record into the same record with count incremented by one, the
elapsed time since that record's window start is at most the window
duration. -/
theorem rate_table_invariant :
    (∀ (env : Option String) (reqs : List (Int × Request)) (m : RateMap),
        keysNodup m → keysNodup (runGate env reqs m).2) ∧
    (∀ (ip : String) (now : Int) (m : RateMap) (record : RateRecord),
        mapGet m ip = some record →
        mapGet (checkRateLimit ip now m).2 ip = some ⟨record.timestamp, record.count + 1⟩ →
        now - record.timestamp ≤ RATE_LIMIT_WINDOW) := by
  constructor
  · intro env reqs
    induction reqs with
    | nil => intro m hm; simpa [runGate] using hm
    | cons p rest ih =>
      intro m hm
      obtain ⟨t, r⟩ := p
      have h1 := middleware_state_nodup env t r m hm
      simpa [runGate] using ih (middleware env t r m).state h1
  · intro ip now m record hget hinc
    by_cases hexp : now - record.timestamp > RATE_LIMIT_WINDOW
    · have hck : checkRateLimit ip now m = (true, mapSet m ip ⟨now, 1⟩) := by
        simp [checkRateLimit, hget, hexp]
      rw [hck] at hinc
      simp only [mapGet_mapSet_self, Option.some.injEq, RateRecord.mk.injEq] at hinc
      unfold RATE_LIMIT_WINDOW
      omega
    · omega

/-- Witness for C9: one invocation from the empty table keeps keys unique,
and a concrete in-window increment satisfies the window bound. -/
theorem rate_table_invariant_witness :
    keysNodup (runGate none [(0, reqGoals)] []).2 ∧
    (5 : Int) - (0 : Int) ≤ RATE_LIMIT_WINDOW :=
  ⟨rate_table_invariant.1 none [(0, reqGoals)] [] (by decide),
    rate_table_invariant.2 "unknown" 5 [("unknown", ⟨0, 1⟩)] ⟨0, 1⟩ (by decide) (by decide)⟩

/-- C10: rate limiting runs before the credential check, so a request that
ends in the 401 rejection has already consumed a rate-limit slot: the
identifier's record in the post-call table is a fresh `⟨now, 1⟩` or the old
record with its count incremented. -/
theorem unauthorized_consumes_slot (env : Option String) (now : Int) (request : Request)
    (m : RateMap)
    (hrej : (middleware env now request m).response =
      Response.json "Unauthorized - Invalid or missing API key" 401 []) :
    ∃ record, mapGet (middleware env now request m).state (clientIp request) = some record ∧
      (record = ⟨now, 1⟩ ∨
        ∃ old, mapGet m (clientIp request) = some old ∧
          record = ⟨old.timestamp, old.count + 1⟩) := by
  by_cases h1 : startsWith request.pathname "/api/" = true
  · by_cases h2 : isPublicRoute request.pathname = true
    · simp [middleware, h1, h2] at hrej
    · rw [Bool.not_eq_true] at h2
      rcases hck : checkRateLimit (clientIp request) now m with ⟨ok, m₁⟩
      cases ok with
      | false =>
        rw [middleware_rate_reject env now request m m₁ h1 h2 hck] at hrej
        simp at hrej
      | true =>
        rw [middleware_state_of_rate_ok env now request m m₁ h1 h2 hck]
        rcases checkRateLimit_true_get (clientIp request) now m m₁ hck with hnew | ⟨old, hold, hnew⟩
        · exact ⟨⟨now, 1⟩, hnew, Or.inl rfl⟩
        · exact ⟨⟨old.timestamp, old.count + 1⟩, hnew, Or.inr ⟨old, hold, rfl⟩⟩
  · rw [Bool.not_eq_true] at h1
    simp [middleware, h1] at hrej

/-- Witness for C10: a 401-rejected request to `/api/settings` with a wrong
key creates the identifier's record with count 1. -/
theorem unauthorized_consumes_slot_witness :
    (middleware (some "abc123") 0 reqWrongKey []).response =
      Response.json "Unauthorized - Invalid or missing API key" 401 [] ∧
    ∃ record,
      mapGet (middleware (some "abc123") 0 reqWrongKey []).state (clientIp reqWrongKey) =
        some record ∧
      (record = ⟨0, 1⟩ ∨
        ∃ old, mapGet [] (clientIp reqWrongKey) = some old ∧
          record = ⟨old.timestamp, old.count + 1⟩) :=
  ⟨by decide, unauthorized_consumes_slot (some "abc123") 0 reqWrongKey [] (by decide)⟩

/-- Within one window, a run of rate-gated, authenticated requests from one
identifier is fully admitted, and the identifier's count grows by the
length of the run. -/
theorem runGate_window_aux (env : Option String) (ip : String) :
    ∀ (reqs : List (Int × Request)) (m : RateMap) (t0 : Int) (k : Nat),
      (∀ p ∈ reqs, GoodReq env ip p) →
      (∀ p ∈ reqs, p.1 - t0 ≤ RATE_LIMIT_WINDOW) →
      mapGet m ip = some ⟨t0, k⟩ →
      k + reqs.length ≤ RATE_LIMIT_MAX →
      (runGate env reqs m).1.all isForwarded = true ∧
      mapGet (runGate env reqs m).2 ip = some ⟨t0, k + reqs.length⟩ := by
  intro reqs
  induction reqs with
  | nil =>
    intro m t0 k _ _ hget _
    exact ⟨by simp [runGate], by simpa [runGate] using hget⟩
  | cons p rest ih =>
    intro m t0 k hgood hw hget hle
    obtain ⟨t, r⟩ := p
    obtain ⟨hapi, hpub, hauth, hip⟩ := hgood (t, r) (List.mem_cons_self _ _)
    have hwin : ¬ (t - t0 > RATE_LIMIT_WINDOW) :=
      not_lt.mpr (hw (t, r) (List.mem_cons_self _ _))
    have hlen : k + (rest.length + 1) ≤ RATE_LIMIT_MAX := by
      simpa [List.length_cons] using hle
    have hcnt : ¬ (k ≥ RATE_LIMIT_MAX) := by omega
    have hrl : checkRateLimit ip t m = (true, mapSet m ip ⟨t0, k + 1⟩) := by
      simp [checkRateLimit, hget, hwin, hcnt]
    have hfwd := middleware_admitted_forward env t r m (mapSet m ip ⟨t0, k + 1⟩)
      hapi hpub hauth (by rw [hip]; exact hrl)
    have hrec := ih (mapSet m ip ⟨t0, k + 1⟩) t0 (k + 1)
      (fun q hq => hgood q (List.mem_cons_of_mem _ hq))
      (fun q hq => hw q (List.mem_cons_of_mem _ hq))
      (mapGet_mapSet_self m ip ⟨t0, k + 1⟩)
      (by omega)
    have harith : k + 1 + rest.length = k + (rest.length + 1) := by omega
    simp only [runGate, List.length_cons, List.all_cons]
    rw [hfwd.2]
    constructor
    · rw [hfwd.1, hrec.1]
      rfl
    · rw [hrec.2, harith]

/-- C1: ceiling enforcement — starting from an identifier with no rate
record, a run of the configured ceiling number of rate-gated,
authenticated API requests within one window is admitted in full, and one
more request from that identifier within the same window is rejected with
the rate-limit error. -/
theorem gate_ceiling_enforcement (env : Option String) (ip : String)
    (t0 : Int) (r0 : Request) (rest : List (Int × Request)) (tn : Int) (rn : Request)
    (m : RateMap)
    (hm : mapGet m ip = none)
    (h0 : GoodReq env ip (t0, r0))
    (hrest : ∀ p ∈ rest, GoodReq env ip p)
    (hn : GoodReq env ip (tn, rn))
    (hlen : rest.length + 1 = RATE_LIMIT_MAX)
    (hw : ∀ p ∈ rest, p.1 - t0 ≤ RATE_LIMIT_WINDOW)
    (hwn : tn - t0 ≤ RATE_LIMIT_WINDOW) :
    (runGate env ((t0, r0) :: rest) m).1.all isForwarded = true ∧
    (middleware env tn rn (runGate env ((t0, r0) :: rest) m).2).response =
      Response.json "Rate limit exceeded. Please slow down." 429 [("Retry-After", "60")] := by
  obtain ⟨hapi0, hpub0, hauth0, hip0⟩ := h0
  have hrl0 : checkRateLimit ip t0 m = (true, mapSet m ip ⟨t0, 1⟩) := by
    simp [checkRateLimit, hm]
  have hfwd0 := middleware_admitted_forward env t0 r0 m (mapSet m ip ⟨t0, 1⟩)
    hapi0 hpub0 hauth0 (by rw [hip0]; exact hrl0)
  have haux := runGate_window_aux env ip rest (mapSet m ip ⟨t0, 1⟩) t0 1 hrest hw
    (mapGet_mapSet_self m ip ⟨t0, 1⟩) (by omega)
  obtain ⟨hapin, hpubn, hauthn, hipn⟩ := hn
  have hfull : mapGet (runGate env rest (mapSet m ip ⟨t0, 1⟩)).2 ip =
      some ⟨t0, RATE_LIMIT_MAX⟩ := by
    have h := haux.2
    have harith : 1 + rest.length = RATE_LIMIT_MAX := by omega
    rwa [harith] at h
  have hrln : checkRateLimit ip tn (runGate env rest (mapSet m ip ⟨t0, 1⟩)).2 =
      (false, (runGate env rest (mapSet m ip ⟨t0, 1⟩)).2) := by
    have hwinn : ¬ (tn - t0 > RATE_LIMIT_WINDOW) := not_lt.mpr hwn
    simp [checkRateLimit, hfull, hwinn]
  have hstep2 : (runGate env ((t0, r0) :: rest) m).2 =
      (runGate env rest (mapSet m ip ⟨t0, 1⟩)).2 := by
    simp only [runGate]
    rw [hfwd0.2]
  constructor
  · simp only [runGate, List.all_cons]
    rw [hfwd0.2, hfwd0.1, haux.1]
    rfl
  · rw [hstep2]
    rw [middleware_rate_reject env tn rn (runGate env rest (mapSet m ip ⟨t0, 1⟩)).2
      (runGate env rest (mapSet m ip ⟨t0, 1⟩)).2 hapin hpubn (by rw [hipn]; exact hrln)]

/-- Witness for C1: one hundred credential-free requests to `/api/goals`
with no secret configured are all forwarded; the 101st within the window
is rejected with the 429 response. -/
theorem gate_ceiling_enforcement_witness :
    (mapGet [] "unknown" = none ∧
      GoodReq none "unknown" ((0 : Int), reqGoals) ∧
      (∀ p ∈ List.replicate 99 ((0 : Int), reqGoals), GoodReq none "unknown" p) ∧
      (List.replicate 99 ((0 : Int), reqGoals)).length + 1 = RATE_LIMIT_MAX ∧
      (∀ p ∈ List.replicate 99 ((0 : Int), reqGoals), p.1 - (0 : Int) ≤ RATE_LIMIT_WINDOW) ∧
      (10 : Int) - (0 : Int) ≤ RATE_LIMIT_WINDOW) ∧
    (runGate none (((0 : Int), reqGoals) :: List.replicate 99 ((0 : Int), reqGoals)) []).1.all
        isForwarded = true ∧
    (middleware none 10 reqGoals
        (runGate none (((0 : Int), reqGoals) :: List.replicate 99 ((0 : Int), reqGoals)) []).2).response =
      Response.json "Rate limit exceeded. Please slow down." 429 [("Retry-After", "60")] :=
  ⟨⟨by decide, by decide, by decide, by decide, by decide, by decide⟩,
    gate_ceiling_enforcement none "unknown" 0 reqGoals (List.replicate 99 (0, reqGoals))
      10 reqGoals []
      (by decide) (by decide) (by decide) (by decide) (by decide) (by decide) (by decide)⟩

end OpenClaw
